import Mathlib

set_option maxRecDepth 100000

/-!
Verification of the framer layer of a Modbus library (`pymodbus/framer/rtu_framer.py`
and `pymodbus/framer/socket_framer.py`), as a shallow embedding.

Bytes are modelled as `Nat` (with `< 256` hypotheses where the code relies on
byte-ness).  Mutating methods become functions `State → State × result`.  Python
exceptions that a method catches are modelled with `Option`; exceptions that escape
to the caller are modelled with an explicit `Option FramerError` component.
External collaborators (the PDU decoder, the per-function-code frame-size
calculator, the PDU `encode`) are parameters.
-/

namespace PyModbus

/-- Clamp a Python slice bound to `[0, len]`: a negative index counts from the end. -/
def pyBound (len : Nat) (i : Int) : Nat :=
  min (if i < 0 then (len : Int) + i else i).toNat len

/-- Python slice `l[a:b]` with Python index conventions (negative indices, clamping). -/
def pySlice (l : List Nat) (a b : Int) : List Nat :=
  (l.take (pyBound l.length b)).drop (pyBound l.length a)

/-- Python slice `l[a:]`. -/
def pySliceFrom (l : List Nat) (a : Int) : List Nat :=
  pySlice l a (l.length : Int)

theorem pyBound_nat (len : Nat) (n : Nat) : pyBound len (n : Int) = min n len := by
  unfold pyBound
  rw [if_neg (by omega)]
  omega

theorem pySlice_nat (l : List Nat) (a b : Nat) :
    pySlice l (a : Int) (b : Int) = (l.take b).drop a := by
  unfold pySlice
  rw [pyBound_nat, pyBound_nat, ← List.take_take, List.take_length]
  rcases Nat.le_total a l.length with ha | ha
  · rw [Nat.min_eq_left ha]
  · have h1 : (l.take b).drop (min a l.length) = [] :=
      List.drop_eq_nil_of_le (by simp [List.length_take]; omega)
    have h2 : (l.take b).drop a = [] :=
      List.drop_eq_nil_of_le (by simp [List.length_take]; omega)
    rw [h1, h2]

theorem pySliceFrom_nat (l : List Nat) (a : Nat) :
    pySliceFrom l (a : Int) = l.drop a := by
  have h := pySlice_nat l a l.length
  rw [List.take_of_length_le (Nat.le_refl l.length)] at h
  exact h

theorem pySliceFrom_neg3 (l : List Nat) (h : 3 ≤ l.length) :
    pySliceFrom l (-3) = l.drop (l.length - 3) := by
  have hb : pyBound l.length (-3) = l.length - 3 := by
    unfold pyBound
    rw [if_pos (by norm_num)]
    omega
  have hb2 : pyBound l.length (l.length : Int) = l.length := by
    rw [pyBound_nat]
    omega
  unfold pySliceFrom pySlice
  rw [hb, hb2, List.take_length]

/-- Modelled from the spec: CRC-16/Modbus single shift round — `pymodbus.utilities`
is not under `src/`; spec section 4.1: polynomial 0xA001 (reflected 0x8005). -/
def crcRound (crc : Nat) : Nat :=
  if crc % 2 = 1 then (crc / 2) ^^^ 0xA001 else crc / 2

/-- Modelled from the spec: fold one byte into the CRC (eight shift rounds after
xoring the byte in), per spec section 4.1 (byte-wise CRC-16/Modbus). -/
def crcByte (crc b : Nat) : Nat :=
  crcRound^[8] (crc ^^^ b)

/-- Modelled from the spec: `computeCRC` of `pymodbus.utilities` (not under `src/`),
per spec section 4.1: initial value 0xFFFF, no final XOR, byte-wise over the data. -/
def computeCRC (data : List Nat) : Nat :=
  data.foldl crcByte 0xFFFF

/-- Modelled from the spec: `checkCRC` of `pymodbus.utilities` (not under `src/`);
the check is self-consistent with `computeCRC` (spec sections 4.1 and 9): it
recomputes the CRC over the data and compares with the given 16-bit value. -/
def checkCRC (data : List Nat) (check : Nat) : Bool :=
  computeCRC data == check

theorem crcRound_lt (crc : Nat) (h : crc < 65536) : crcRound crc < 65536 := by
  unfold crcRound
  split
  · have h1 : crc / 2 < 32768 := by omega
    have h2 : crc / 2 < 2 ^ 16 := by omega
    have h3 : (0xA001 : Nat) < 2 ^ 16 := by norm_num
    have := Nat.xor_lt_two_pow h2 h3
    omega
  · omega

theorem crcByte_lt (crc b : Nat) (hc : crc < 65536) (hb : b < 256) :
    crcByte crc b < 65536 := by
  have hx : crc ^^^ b < 65536 := by
    have h2 : crc < 2 ^ 16 := hc
    have h3 : b < 2 ^ 16 := by omega
    have := Nat.xor_lt_two_pow h2 h3
    omega
  unfold crcByte
  have step : ∀ n x, x < 65536 → crcRound^[n] x < 65536 := by
    intro n
    induction n with
    | zero => intro x hx1; simpa using hx1
    | succ n ih =>
      intro x hx1
      rw [Function.iterate_succ_apply]
      exact ih _ (crcRound_lt x hx1)
  exact step 8 _ hx

theorem computeCRC_lt (data : List Nat) (h : ∀ b ∈ data, b < 256) :
    computeCRC data < 65536 := by
  unfold computeCRC
  have gen : ∀ l : List Nat, (∀ b ∈ l, b < 256) → ∀ c, c < 65536 → l.foldl crcByte c < 65536 := by
    intro l
    induction l with
    | nil => intro _ c hc; simpa using hc
    | cons x xs ih =>
      intro hl c hc
      simp only [List.foldl_cons]
      exact ih (fun b hb => hl b (List.mem_cons_of_mem x hb)) _
        (crcByte_lt c x hc (hl x (List.mem_cons_self x xs)))
  exact gen data h 0xFFFF (by norm_num)

/-- Big-endian 16-bit encoding, as produced by `struct.pack` with format `>H`
(the caller must have the value below 2^16; `struct.pack` raises otherwise, so
theorems carry that bound as a hypothesis). -/
def be16 (n : Nat) : List Nat :=
  [n / 256, n % 256]

/-- The PDU object, as far as the framers inspect it (external collaborator). -/
structure Pdu where
  function_code : Nat
  slave_id : Nat
  transaction_id : Nat
  protocol_id : Nat
deriving Repr, DecidableEq

/-- Exceptions that escape the framer methods to the caller:
`ModbusIOException` on decode failure and `InvalidMessageReceivedException`. -/
inductive FramerError where
  | decodeFail : FramerError
  | invalidMessage : Pdu → FramerError
deriving Repr, DecidableEq

/-- The RTU framer's mutable header record (`self._header` of `ModbusRtuFramer`).
The source stores the dict `{uid, tid, len, crc}`; `advanceFrame` resets it
(the source's reset dict omits `tid`, but `tid` is always rewritten by
`populateHeader` before any read, so it is modelled as reset to 0). -/
structure RtuHeader where
  uid : Nat
  tid : Nat
  len : Nat
  crc : List Nat
deriving Repr, DecidableEq

/-- Header value after `advanceFrame` / `resetFrame`. -/
def rtuHeaderReset : RtuHeader :=
  ⟨0, 0, 0, [0, 0]⟩

/-- The RTU framer's mutable state: the byte buffer and the header record. -/
structure RtuState where
  buffer : List Nat
  header : RtuHeader
deriving Repr, DecidableEq

/-- `ModbusRtuFramer.get_expected_response_length`: reads the function code at
`data[1]` (raising `IndexError`, modelled as `none`, when the buffer is too short)
and asks the external per-function-code calculator for the total frame size.
`calcSize fc data` models `decoder.lookupPduClass(fc).calculateRtuFrameSize(data)`;
its `none` models the calculator raising (for example "need more bytes"). -/
def get_expected_response_length (calcSize : Nat → List Nat → Option Nat)
    (data : List Nat) : Option Nat :=
  match data.get? 1 with
  | none => none
  | some fc => calcSize fc data

/-- `ModbusRtuFramer.populateHeader` called on the framer's own buffer: writes
`uid` and `tid` from `data[0]`, then `len` from the expected frame size, and the
two CRC bytes `data[size - 2 : size]` once `size` bytes are buffered.  Raises
`IndexError` (modelled as `none`) part-way through, leaving the fields written so
far — exactly as the source mutates the dict in order. -/
def populateHeader (calcSize : Nat → List Nat → Option Nat) (s : RtuState) :
    RtuState × Option Nat :=
  match s.buffer.head? with
  | none => (s, none)
  | some b0 =>
    let h1 : RtuHeader := { s.header with uid := b0, tid := b0 }
    match get_expected_response_length calcSize s.buffer with
    | none => ({ s with header := h1 }, none)
    | some size =>
      let h2 : RtuHeader := { h1 with len := size }
      if s.buffer.length < size then
        ({ s with header := h2 }, none)
      else
        ({ s with header :=
            { h2 with crc := pySlice s.buffer ((size : Int) - 2) (size : Int) } },
          some size)

/-- `ModbusRtuFramer.checkFrame`: populate the header, then compare the CRC over
`buffer[: len - 2]` with the stored CRC bytes read as a big-endian word
`(crc[0] << 8) + crc[1]`.  Any `IndexError`/`KeyError`/`struct.error` is caught
and turned into `false`; the header mutations made so far persist. -/
def checkFrame (calcSize : Nat → List Nat → Option Nat) (s : RtuState) :
    RtuState × Bool :=
  match populateHeader calcSize s with
  | (s1, none) => (s1, false)
  | (s1, some _) =>
    let fsz := s1.header.len
    let data := pySlice s1.buffer 0 ((fsz : Int) - 2)
    match s1.header.crc with
    | c0 :: c1 :: _ => (s1, checkCRC data (c0 * 256 + c1))
    | _ => (s1, false)

/-- `ModbusRtuFramer.advanceFrame`: drop `buffer[len:]`'s complement — the buffer
becomes `buffer[self._header[len]:]` — and reset the header. -/
def advanceFrame (s : RtuState) : RtuState :=
  ⟨pySliceFrom s.buffer (s.header.len : Int), rtuHeaderReset⟩

/-- `ModbusRtuFramer.resetFrame`: the RTU override keeps the buffer and resets
only the header (it saves the buffer around the base-class reset). -/
def resetFrameRtu (s : RtuState) : RtuState :=
  ⟨s.buffer, rtuHeaderReset⟩

/-- `ModbusRtuFramer.isFrameReady` (`_hsize = 1`): if no length is known yet and
more than one byte is buffered, try `populateHeader` (catching `IndexError`);
report ready when a positive expected size is known and buffered. -/
def isFrameReady (calcSize : Nat → List Nat → Option Nat) (s : RtuState) :
    RtuState × Bool :=
  if s.header.len = 0 ∧ 1 < s.buffer.length then
    match populateHeader calcSize s with
    | (s1, none) => (s1, false)
    | (s1, some size) => (s1, decide (0 < size) && decide (size ≤ s1.buffer.length))
  else
    (s, decide (0 < s.header.len) && decide (s.header.len ≤ s.buffer.length))

/-- `ModbusRtuFramer.getFrame`: the frame payload `buffer[1 : len - 2]`
(function code plus data, without uid and CRC), or `b""` when `len - 2 ≤ 0`. -/
def getFrame (s : RtuState) : List Nat :=
  if 0 < (s.header.len : Int) - 2 then
    pySlice s.buffer 1 ((s.header.len : Int) - 2)
  else
    []

/-- `ModbusRtuFramer.populateResult`: copy the header's `uid` and `tid`
(both read from the frame's first byte) onto the decoded PDU. -/
def populateResult (h : RtuHeader) (r : Pdu) : Pdu :=
  { r with slave_id := h.uid, transaction_id := h.tid }

/-- The per-index test of `getFrameStart`'s scan loop: the byte at `i` passes the
slave filter (or broadcast), and the byte at `i + 1` is a known function code or
is one after subtracting 0x80 (Python integer subtraction, hence `Int`). -/
def candidateAt (fcs : List Int) (slaves : List Nat) (broadcast : Bool)
    (buf : List Nat) (i : Nat) : Bool :=
  (broadcast || slaves.contains (buf.getD i 0)) &&
    (fcs.contains ((buf.getD (i + 1) 0 : Nat) : Int) ||
      fcs.contains (((buf.getD (i + 1) 0 : Nat) : Int) - 0x80))

/-- `ModbusRtuFramer.getFrameStart`: scan `range(start, buf_len - 3)` (start is 1
when the previous candidate was rejected) for a plausible `(slave id, function
code)` pair; on a hit at `i`, drop the `i` leading trash bytes and succeed; on a
miss with more than 3 bytes buffered, keep only `buffer[-3:]` and fail. -/
def getFrameStart (fcs : List Int) (slaves : List Nat) (broadcast skip : Bool)
    (s : RtuState) : RtuState × Bool :=
  let start := if skip then 1 else 0
  let bufLen := s.buffer.length
  if bufLen < 4 then (s, false)
  else
    match (List.range' start (bufLen - 3 - start)).find?
        (candidateAt fcs slaves broadcast s.buffer) with
    | some i => ({ s with buffer := pySliceFrom s.buffer (i : Int) }, true)
    | none => ({ s with buffer := pySliceFrom s.buffer (-3) }, false)

/-- Modelled from the spec: the base-class `_validate_slave_id` used by the RTU
framer is not under `src/`.  Spec section 4.3 step 4: with `single_context=false`
and no broadcast, require `uid ∈ valid_slaves`; `single` matches any id, and a
configured slave id 0 means broadcast (glossary: slave id 0 is broadcast). -/
def validate_slave_id (slaves : List Nat) (single : Bool) (uid : Nat) : Bool :=
  single || slaves.contains 0 || slaves.contains uid

/-- `ModbusRtuFramer._process`: decode the current frame payload; `None` from the
decoder raises `ModbusIOException` (nothing advanced); otherwise populate the
result header, advance past the frame and deliver the PDU to the callback. -/
def rtuProcessStep (decode : List Nat → Option Pdu) (err : Bool) (s : RtuState) :
    RtuState × Option Pdu × Option FramerError :=
  let data := if err then s.buffer else getFrame s
  match decode data with
  | none => (s, none, some FramerError.decodeFail)
  | some result =>
    if err ∧ result.function_code < 0x80 then
      (s, none, some (FramerError.invalidMessage result))
    else
      (advanceFrame s, some (populateResult s.header result), none)

/-- The `while` loop of `ModbusRtuFramer.frameProcessIncomingPacket`, with the
`skip_cur_frame` flag loop-carried and explicit fuel (each iteration past the
first strictly shrinks the buffer, so `buffer length + 2` iterations suffice).
Returns the final state, the PDUs delivered to the callback in order, and the
exception that escaped the loop, if any. -/
def rtuLoop (fcs : List Int) (calcSize : Nat → List Nat → Option Nat)
    (decode : List Nat → Option Pdu) (slaves : List Nat) (broadcast single : Bool) :
    Nat → Bool → RtuState → RtuState × List Pdu × Option FramerError
  | 0, _, s => (s, [], none)
  | fuel + 1, skip, s =>
    match getFrameStart fcs slaves broadcast skip s with
    | (s1, false) => (s1, [], none)
    | (s1, true) =>
      match isFrameReady calcSize s1 with
      | (s2, false) => (s2, [], none)
      | (s2, true) =>
        match checkFrame calcSize s2 with
        | (s3, false) =>
          rtuLoop fcs calcSize decode slaves broadcast single fuel true
            (resetFrameRtu s3)
        | (s3, true) =>
          if validate_slave_id slaves single s3.header.uid then
            match rtuProcessStep decode false s3 with
            | (s4, some pdu, none) =>
              let r := rtuLoop fcs calcSize decode slaves broadcast single fuel skip s4
              (r.1, pdu :: r.2.1, r.2.2)
            | (s4, _, e) => (s4, [], e)
          else
            rtuLoop fcs calcSize decode slaves broadcast single fuel true
              (resetFrameRtu s3)

/-- `ModbusRtuFramer.frameProcessIncomingPacket`: `broadcast = not slave[0]`
(the source indexes `slave[0]`, so the slave list must be nonempty), then the
scan/check/deliver loop starting with `skip_cur_frame = False`. -/
def rtuFrameProcessIncomingPacket (fcs : List Int)
    (calcSize : Nat → List Nat → Option Nat) (decode : List Nat → Option Pdu)
    (single : Bool) (slaves : List Nat) (s : RtuState) :
    RtuState × List Pdu × Option FramerError :=
  rtuLoop fcs calcSize decode slaves (decide (slaves.headD 1 = 0)) single
    (s.buffer.length + 2) false s

/-- `ModbusRtuFramer.buildPacket`: `pack(">BB", slave_id, function_code)` plus the
encoded data, then the CRC of everything so far appended via `pack(">H", crc)`;
afterwards the message's `transaction_id` is forced to its `slave_id`.  Returns
the wire bytes together with the mutated message. -/
def rtuBuildPacket (encode : Pdu → List Nat) (m : Pdu) : List Nat × Pdu :=
  let data := encode m
  let packet := [m.slave_id, m.function_code] ++ data
  (packet ++ be16 (computeCRC packet), { m with transaction_id := m.slave_id })

/-- The socket framer's mutable header (`self._header` of `ModbusSocketFramer`):
the MBAP fields parsed from the first 7 buffered bytes. -/
structure SockHeader where
  tid : Nat
  pid : Nat
  len : Nat
  uid : Nat
deriving Repr, DecidableEq

/-- The socket framer's mutable state: buffer plus MBAP header (`_hsize = 7`). -/
structure SockState where
  buffer : List Nat
  header : SockHeader
deriving Repr, DecidableEq

/-- A slave-list entry for `ModbusSocketFramer._validate_slave_id`: either a bare
uid or a `(peer address, uid)` pair (peer addresses are modelled as opaque
numeric identifiers in place of Python's address strings). -/
def SlaveKey : Type := Nat ⊕ (Nat × Nat)

instance : DecidableEq SlaveKey := by
  unfold SlaveKey
  infer_instance

/-- `ModbusSocketFramer.advanceFrame`: drop `self._hsize + self._header["len"]`
bytes — note: NOT the `hsize + len - 1` bytes that the class docstring
(`message = [7 + length - 1:]`) describes — and zero the header. -/
def sockAdvanceFrame (s : SockState) : SockState :=
  ⟨s.buffer.drop (7 + s.header.len), ⟨0, 0, 0, 0⟩⟩

/-- `ModbusSocketFramer.isFrameReady`: `len(buffer) > hsize`. -/
def sockIsFrameReady (s : SockState) : Bool :=
  7 < s.buffer.length

/-- `ModbusSocketFramer.getFrame`: `buffer[hsize : hsize + len]` — again one byte
past the `hsize + len - 1` frame end that the class docstring describes. -/
def sockGetFrame (s : SockState) : List Nat :=
  (s.buffer.take (7 + s.header.len)).drop 7

/-- Modelled from the spec: the base-class `resetFrame` used by the socket framer
is not under `src/`.  Spec section 3 (header reset to zero on `reset_frame`) and
section 4.4 step 3 (on decode failure reset the buffer entirely): both the buffer
and the header are cleared. -/
def sockResetFrame (_s : SockState) : SockState :=
  ⟨[], ⟨0, 0, 0, 0⟩⟩

/-- `ModbusSocketFramer.checkFrame`: once more than 7 bytes are buffered, unpack
the big-endian MBAP header `>HHHB`; `len < 2` is malformed — skip it via
`advanceFrame` and report not-ready; otherwise ready as soon as
`len(buffer) - hsize + 1 ≥ len`. -/
def sockCheckFrame (s : SockState) : SockState × Bool :=
  if s.buffer.length ≤ 7 then (s, false)
  else
    match s.buffer with
    | b0 :: b1 :: b2 :: b3 :: b4 :: b5 :: b6 :: _ =>
      let h : SockHeader := ⟨b0 * 256 + b1, b2 * 256 + b3, b4 * 256 + b5, b6⟩
      let s1 : SockState := ⟨s.buffer, h⟩
      if h.len < 2 then (sockAdvanceFrame s1, false)
      else if h.len ≤ s1.buffer.length - 7 + 1 then (s1, true)
      else (s1, false)
    | _ => (s, false)

/-- `ModbusSocketFramer._validate_slave_id`: `single` matches anything; a
configured slave id 0 means broadcast; with a transport peer address available
the lookup key is the `(peer, uid)` pair, otherwise the bare uid.  The source's
two `None` checks (no transport, no peername) are collapsed into one `Option`. -/
def sockValidateSlaveId (transportPeer : Option Nat) (slaves : List SlaveKey)
    (single : Bool) (uid : Nat) : Bool :=
  if single then true
  else if slaves.contains (Sum.inl 0) then true
  else
    match transportPeer with
    | none => slaves.contains (Sum.inl uid)
    | some peer => slaves.contains (Sum.inr (peer, uid))

/-- Modelled from the spec: the base-class `populateResult` used by the socket
framer is not under `src/`.  Spec sections 3 and 4.4: the decoded PDU carries the
frame header's uid, transaction id and protocol id. -/
def sockPopulateResult (h : SockHeader) (r : Pdu) : Pdu :=
  { r with slave_id := h.uid, transaction_id := h.tid, protocol_id := h.pid }

/-- `ModbusSocketFramer._process`: decode the current frame; `None` from the
decoder resets the frame and raises `ModbusIOException`; otherwise populate the
result, advance the frame, and — when a truthy expected `tid` disagrees with the
result's transaction id — reset the frame instead of delivering. -/
def sockProcessStep (decode : List Nat → Option Pdu) (tid : Option Nat)
    (err : Bool) (s : SockState) : SockState × Option Pdu × Option FramerError :=
  match decode (if err then s.buffer else sockGetFrame s) with
  | none => (sockResetFrame s, none, some FramerError.decodeFail)
  | some result =>
    if err ∧ result.function_code < 0x80 then
      (s, none, some (FramerError.invalidMessage result))
    else
      match tid with
      | some t =>
        if t ≠ 0 ∧ t ≠ (sockPopulateResult s.header result).transaction_id then
          (sockResetFrame (sockAdvanceFrame s), none, none)
        else (sockAdvanceFrame s, some (sockPopulateResult s.header result), none)
      | none => (sockAdvanceFrame s, some (sockPopulateResult s.header result), none)

/-- `ModbusSocketFramer.frameProcessIncomingPacket`: check the frame, validate
the slave id (resetting the frame on mismatch), then `_process` — at most one
frame per call.  Returns the final state, the PDU delivered to the callback (if
any), and the exception that escaped (if any). -/
def sockFrameProcessIncomingPacket (decode : List Nat → Option Pdu)
    (transportPeer : Option Nat) (single : Bool) (slaves : List SlaveKey)
    (tid : Option Nat) (s : SockState) :
    SockState × Option Pdu × Option FramerError :=
  match sockCheckFrame s with
  | (s1, false) => (s1, none, none)
  | (s1, true) =>
    if sockValidateSlaveId transportPeer slaves single s1.header.uid then
      sockProcessStep decode tid false s1
    else
      (sockResetFrame s1, none, none)

/-- `ModbusSocketFramer.buildPacket`: `pack(">HHHBB", tid, pid, len(data) + 2,
slave_id, function_code)` followed by the encoded data (`struct.pack` requires
the fields in range; theorems carry those bounds as hypotheses). -/
def sockBuildPacket (encode : Pdu → List Nat) (m : Pdu) : List Nat :=
  let data := encode m
  be16 m.transaction_id ++ be16 m.protocol_id ++ be16 (data.length + 2) ++
    [m.slave_id, m.function_code] ++ data

/-! Helper lemmas about the embedded operations. -/

theorem populateHeader_buffer (calcSize : Nat → List Nat → Option Nat)
    (s : RtuState) : (populateHeader calcSize s).1.buffer = s.buffer := by
  unfold populateHeader
  rcases s.buffer.head? with _ | b0
  · rfl
  · simp only
    rcases get_expected_response_length calcSize s.buffer with _ | size
    · rfl
    · simp only
      split <;> rfl

theorem checkFrame_buffer (calcSize : Nat → List Nat → Option Nat)
    (s : RtuState) : (checkFrame calcSize s).1.buffer = s.buffer := by
  unfold checkFrame
  have h := populateHeader_buffer calcSize s
  rcases hp : populateHeader calcSize s with ⟨s1, r⟩
  rw [hp] at h
  rcases r with _ | size
  · exact h
  · simp only
    rcases s1.header.crc with _ | ⟨c0, cs⟩
    · exact h
    · rcases cs with _ | ⟨c1, rest⟩
      · exact h
      · exact h

theorem isFrameReady_buffer (calcSize : Nat → List Nat → Option Nat)
    (s : RtuState) : (isFrameReady calcSize s).1.buffer = s.buffer := by
  unfold isFrameReady
  split
  · have h := populateHeader_buffer calcSize s
    rcases hp : populateHeader calcSize s with ⟨s1, r⟩
    rw [hp] at h
    rcases r with _ | size
    · exact h
    · exact h
  · rfl

/-- `List.find?` over `List.range' a n` returns the least index satisfying the
predicate, given one in range together with minimality. -/
theorem find?_range'_eq_some (p : Nat → Bool) (a n i : Nat)
    (hi : a ≤ i) (hlt : i < a + n) (hp : p i = true)
    (hmin : ∀ j, a ≤ j → j < i → p j = false) :
    (List.range' a n).find? p = some i := by
  induction n generalizing a with
  | zero => omega
  | succ n ih =>
    rw [List.range'_succ]
    rcases Nat.eq_or_lt_of_le hi with heq | hlt2
    · subst heq
      simp [List.find?, hp]
    · have ha : p a = false := hmin a (Nat.le_refl a) hlt2
      simp only [List.find?, ha]
      exact ih (a + 1) hlt2 (by omega) (fun j h1 h2 => hmin j (by omega) h2)

theorem getFrameStart_buffer_found (fcs : List Int) (slaves : List Nat)
    (broadcast : Bool) (s t : RtuState)
    (h : getFrameStart fcs slaves broadcast true s = (t, true)) :
    t.buffer.length < s.buffer.length := by
  unfold getFrameStart at h
  by_cases h4 : s.buffer.length < 4
  · rw [if_pos h4] at h
    cases h
  · rw [if_neg h4] at h
    rcases hf : (List.range' (if true then 1 else 0) (s.buffer.length - 3 - if true then 1 else 0)).find?
        (candidateAt fcs slaves broadcast s.buffer) with _ | i
    · rw [hf] at h
      cases h
    · rw [hf] at h
      have hmem := List.mem_of_find?_eq_some hf
      have hge : 1 ≤ i := by
        have := (List.mem_range'_1.mp (by simpa using hmem)).1
        omega
      have hb : t.buffer = s.buffer.drop i := by
        cases h
        exact pySliceFrom_nat s.buffer i
      rw [hb, List.length_drop]
      omega

/-! Concrete scenario instances used by witnesses and counterexamples. -/

/-- A well-formed RTU read-holding-registers response `01 03 02 00 0A` plus its
own CRC as emitted by `buildPacket` (big-endian `pack` of `computeCRC`). -/
def rtuGoodBytes : List Nat :=
  [1, 3, 2, 0, 10] ++ be16 (computeCRC [1, 3, 2, 0, 10])

/-- A frame-size calculator that answers 7 bytes for every prefix (the fixed size
of the scenario's read-holding-registers response frame). -/
def calcSize7 : Nat → List Nat → Option Nat :=
  fun _ _ => some 7

/-- A decoder lookup containing only function code 3. -/
def fcs3 : List Int :=
  [3]

/-- A decoder that decodes any payload into a PDU carrying its first byte as the
function code. -/
def decodeFc : List Nat → Option Pdu :=
  fun l => some ⟨l.headD 0, 0, 0, 0⟩

/-- Claim C2: for the RTU framer, when a frame passes the start-scan, length,
CRC, and slave-id checks but the PDU decoder fails on its payload, the framer
surfaces a decode error to the caller AND advances the buffer past the frame.
Counterexample: on the well-formed frame `rtuGoodBytes` with an always-failing
decoder, `frameProcessIncomingPacket` surfaces `ModbusIOException` but the
buffer still holds the entire frame — it was not advanced. -/
theorem rtu_decode_failure_does_not_advance_cex :
    (rtuFrameProcessIncomingPacket fcs3 calcSize7 (fun _ => none) false [1]
        ⟨rtuGoodBytes, rtuHeaderReset⟩).2.2 = some FramerError.decodeFail
    ∧ (rtuFrameProcessIncomingPacket fcs3 calcSize7 (fun _ => none) false [1]
        ⟨rtuGoodBytes, rtuHeaderReset⟩).1.buffer = rtuGoodBytes
    ∧ (rtuFrameProcessIncomingPacket fcs3 calcSize7 (fun _ => none) false [1]
        ⟨rtuGoodBytes, rtuHeaderReset⟩).1.buffer ≠ [] := by
  decide

/-- Claim C2 (amended): when a candidate frame passes the start-scan, readiness,
CRC and slave-id checks but the PDU decoder returns `None`, the RTU framer
raises `ModbusIOException` to the caller and does NOT advance the buffer: the
loop aborts with the frame's bytes still buffered (only header metadata was
written), so the same bytes would be reprocessed by the next call. -/
theorem rtu_decode_failure_raises_without_advance
    (fcs : List Int) (calcSize : Nat → List Nat → Option Nat)
    (decode : List Nat → Option Pdu) (slaves : List Nat)
    (broadcast single skip : Bool) (fuel : Nat) (s s1 s2 s3 : RtuState)
    (hgs : getFrameStart fcs slaves broadcast skip s = (s1, true))
    (hr : isFrameReady calcSize s1 = (s2, true))
    (hc : checkFrame calcSize s2 = (s3, true))
    (hv : validate_slave_id slaves single s3.header.uid = true)
    (hd : decode (getFrame s3) = none) :
    rtuLoop fcs calcSize decode slaves broadcast single (fuel + 1) skip s
      = (s3, [], some FramerError.decodeFail) ∧ s3.buffer = s1.buffer := by
  constructor
  · simp only [rtuLoop, hgs, hr, hc, hv, if_true]
    unfold rtuProcessStep
    simp [hd]
  · have h2 := isFrameReady_buffer calcSize s1
    have h3 := checkFrame_buffer calcSize s2
    rw [hr] at h2
    rw [hc] at h3
    rw [h3, h2]

/-- Witness for the amended claim C2 at the concrete scenario. -/
theorem rtu_decode_failure_raises_without_advance_witness :
    rtuLoop fcs3 calcSize7 (fun _ => none) [1] false false (0 + 1) false
        ⟨rtuGoodBytes, rtuHeaderReset⟩
      = (⟨rtuGoodBytes, ⟨1, 1, 7, be16 (computeCRC [1, 3, 2, 0, 10])⟩⟩, [],
          some FramerError.decodeFail)
    ∧ (⟨rtuGoodBytes, ⟨1, 1, 7, be16 (computeCRC [1, 3, 2, 0, 10])⟩⟩
        : RtuState).buffer = (⟨rtuGoodBytes, rtuHeaderReset⟩ : RtuState).buffer :=
  rtu_decode_failure_raises_without_advance fcs3 calcSize7 (fun _ => none) [1]
    false false false 0 ⟨rtuGoodBytes, rtuHeaderReset⟩
    ⟨rtuGoodBytes, rtuHeaderReset⟩
    ⟨rtuGoodBytes, ⟨1, 1, 7, be16 (computeCRC [1, 3, 2, 0, 10])⟩⟩
    ⟨rtuGoodBytes, ⟨1, 1, 7, be16 (computeCRC [1, 3, 2, 0, 10])⟩⟩
    (by decide) (by decide) (by decide) (by decide) rfl

/-- Claim C4: when a candidate frame fails the CRC check during
`frameProcessIncomingPacket`, no frame is delivered for that candidate and no
CRC error propagates (the iteration's outcome is exactly the outcome of the
continuation with `skip_cur_frame = True` on the same buffer), and every later
candidate accepted by the skip-scan starts at least one byte further on, so the
failed start position cannot be re-accepted. -/
theorem rtu_crc_failure_silent_resync
    (fcs : List Int) (calcSize : Nat → List Nat → Option Nat)
    (decode : List Nat → Option Pdu) (slaves : List Nat)
    (broadcast single skip : Bool) (fuel : Nat) (s s1 s2 s3 : RtuState)
    (hgs : getFrameStart fcs slaves broadcast skip s = (s1, true))
    (hr : isFrameReady calcSize s1 = (s2, true))
    (hc : checkFrame calcSize s2 = (s3, false)) :
    rtuLoop fcs calcSize decode slaves broadcast single (fuel + 1) skip s
      = rtuLoop fcs calcSize decode slaves broadcast single fuel true
          (resetFrameRtu s3)
    ∧ (resetFrameRtu s3).buffer = s1.buffer
    ∧ ∀ t u : RtuState, getFrameStart fcs slaves broadcast true t = (u, true) →
        u.buffer.length < t.buffer.length := by
  refine ⟨?_, ?_, ?_⟩
  · simp only [rtuLoop, hgs, hr, hc]
  · have h2 := isFrameReady_buffer calcSize s1
    have h3 := checkFrame_buffer calcSize s2
    rw [hr] at h2
    rw [hc] at h3
    show s3.buffer = s1.buffer
    rw [h3, h2]
  · intro t u h
    exact getFrameStart_buffer_found fcs slaves broadcast t u h

/-- Witness for claim C4 at the concrete corrupted frame `01 03 02 00 0A 00 00`
(wrong CRC). -/
theorem rtu_crc_failure_silent_resync_witness :
    rtuLoop fcs3 calcSize7 decodeFc [1] false false (2 + 1) false
        ⟨[1, 3, 2, 0, 10, 0, 0], rtuHeaderReset⟩
      = rtuLoop fcs3 calcSize7 decodeFc [1] false false 2 true
          (resetFrameRtu ⟨[1, 3, 2, 0, 10, 0, 0], ⟨1, 1, 7, [0, 0]⟩⟩)
    ∧ (resetFrameRtu ⟨[1, 3, 2, 0, 10, 0, 0], ⟨1, 1, 7, [0, 0]⟩⟩).buffer
        = (⟨[1, 3, 2, 0, 10, 0, 0], rtuHeaderReset⟩ : RtuState).buffer
    ∧ ∀ t u : RtuState, getFrameStart fcs3 [1] false true t = (u, true) →
        u.buffer.length < t.buffer.length :=
  rtu_crc_failure_silent_resync fcs3 calcSize7 decodeFc [1] false false false 2
    ⟨[1, 3, 2, 0, 10, 0, 0], rtuHeaderReset⟩
    ⟨[1, 3, 2, 0, 10, 0, 0], rtuHeaderReset⟩
    ⟨[1, 3, 2, 0, 10, 0, 0], ⟨1, 1, 7, [0, 0]⟩⟩
    ⟨[1, 3, 2, 0, 10, 0, 0], ⟨1, 1, 7, [0, 0]⟩⟩
    (by decide) (by decide) (by decide)

/-- Claim C5: the start scan finds the smallest index `i` (starting at 1 if the
previous frame was rejected, else 0) whose bytes pass the slave and function-code
tests, with no upper bound on `i`.  Counterexample: buffer `[0, 0, 1, 3]` with
valid slave 1 and known function code 3 has a qualifying candidate at `i = 2`,
yet `getFrameStart` reports failure and truncates to the last 3 bytes, because
its scan stops before `buf_len - 3`. -/
theorem getFrameStart_unbounded_scan_cex :
    candidateAt fcs3 [1] false [0, 0, 1, 3] 2 = true
    ∧ getFrameStart fcs3 [1] false false ⟨[0, 0, 1, 3], rtuHeaderReset⟩
        = (⟨[0, 1, 3], rtuHeaderReset⟩, false)
    ∧ getFrameStart fcs3 [1] false false ⟨[0, 0, 1, 3], rtuHeaderReset⟩
        ≠ (⟨[1, 3], rtuHeaderReset⟩, true) := by
  decide

/-- Claim C5 (amended): `getFrameStart` finds the smallest index `i` in the scan
range `[start, buf_len - 3)` — a candidate must leave room for a minimal 4-byte
frame — with `start = 1` if the previous frame was rejected, else 0, such that
(broadcast holds or `buffer[i]` is a valid slave) and `buffer[i+1]` (possibly
after subtracting 0x80) is a known function code; on success it discards exactly
bytes `[0..i)` and reports success; if the buffer has fewer than 4 bytes it
fails untouched; if no candidate exists in the range it retains only the last
3 bytes and reports failure. -/
theorem getFrameStart_bounded_scan_spec (fcs : List Int) (slaves : List Nat)
    (broadcast skip : Bool) (s : RtuState) (i : Nat) :
    (s.buffer.length < 4 → getFrameStart fcs slaves broadcast skip s = (s, false))
    ∧ (4 ≤ s.buffer.length →
        (if skip then 1 else 0) ≤ i → i < s.buffer.length - 3 →
        candidateAt fcs slaves broadcast s.buffer i = true →
        (∀ j, (if skip then 1 else 0) ≤ j → j < i →
          candidateAt fcs slaves broadcast s.buffer j = false) →
        getFrameStart fcs slaves broadcast skip s
          = ({ s with buffer := s.buffer.drop i }, true))
    ∧ (4 ≤ s.buffer.length →
        (∀ j, (if skip then 1 else 0) ≤ j → j < s.buffer.length - 3 →
          candidateAt fcs slaves broadcast s.buffer j = false) →
        getFrameStart fcs slaves broadcast skip s
          = ({ s with buffer := s.buffer.drop (s.buffer.length - 3) }, false)) := by
  have hstart : (if skip then 1 else 0) = 0 ∨ (if skip then 1 else 0) = 1 := by
    cases skip <;> simp
  refine ⟨?_, ?_, ?_⟩
  · intro h4
    unfold getFrameStart
    rw [if_pos h4]
  · intro h4 hi hlt hp hmin
    unfold getFrameStart
    rw [if_neg (by omega)]
    have hf : (List.range' (if skip then 1 else 0)
        (s.buffer.length - 3 - (if skip then 1 else 0))).find?
        (candidateAt fcs slaves broadcast s.buffer) = some i := by
      apply find?_range'_eq_some _ _ _ _ hi (by omega) hp hmin
    rw [hf]
    show ({ s with buffer := pySliceFrom s.buffer (i : Int) }, true) = _
    rw [pySliceFrom_nat]
  · intro h4 hmin
    unfold getFrameStart
    rw [if_neg (by omega)]
    have hf : (List.range' (if skip then 1 else 0)
        (s.buffer.length - 3 - (if skip then 1 else 0))).find?
        (candidateAt fcs slaves broadcast s.buffer) = none := by
      rw [List.find?_eq_none]
      intro x hx
      have hx2 := List.mem_range'_1.mp hx
      rw [hmin x hx2.1 (by omega)]
      simp
    rw [hf]
    show ({ s with buffer := pySliceFrom s.buffer (-3) }, false) = _
    rw [pySliceFrom_neg3 _ (by omega)]

/-- Witness for the amended claim C5: on `FF FF 01 03 00 00 00` the scan accepts
the candidate at index 2 and discards exactly the two leading trash bytes. -/
theorem getFrameStart_bounded_scan_spec_witness :
    getFrameStart fcs3 [1] false false ⟨[255, 255, 1, 3, 0, 0, 0], rtuHeaderReset⟩
      = (⟨[1, 3, 0, 0, 0], rtuHeaderReset⟩, true) :=
  (getFrameStart_bounded_scan_spec fcs3 [1] false false
      ⟨[255, 255, 1, 3, 0, 0, 0], rtuHeaderReset⟩ 2).2.1
    (by decide) (by decide) (by decide) (by decide)
    (by
      intro j h1 h2
      interval_cases j <;> decide)

theorem populateHeader_append_crc (calcSize : Nat → List Nat → Option Nat)
    (b0 b1 : Nat) (rest : List Nat) (c0 c1 : Nat) (hd : RtuHeader)
    (hsz : get_expected_response_length calcSize (b0 :: b1 :: (rest ++ [c0, c1]))
      = some (rest.length + 4)) :
    populateHeader calcSize ⟨b0 :: b1 :: (rest ++ [c0, c1]), hd⟩
      = (⟨b0 :: b1 :: (rest ++ [c0, c1]), ⟨b0, b0, rest.length + 4, [c0, c1]⟩⟩,
          some (rest.length + 4)) := by
  have hslice : pySlice (b0 :: b1 :: (rest ++ [c0, c1]))
      (((rest.length + 4 : Nat) : Int) - 2) ((rest.length + 4 : Nat) : Int)
        = [c0, c1] := by
    have hcast : ((rest.length + 4 : Nat) : Int) - 2 = ((rest.length + 2 : Nat) : Int) := by
      push_cast
      ring
    rw [hcast, pySlice_nat]
    have ht : (b0 :: b1 :: (rest ++ [c0, c1])).take (rest.length + 4)
        = b0 :: b1 :: (rest ++ [c0, c1]) :=
      List.take_of_length_le (by simp)
    rw [ht]
    have hr2 : b0 :: b1 :: (rest ++ [c0, c1]) = (b0 :: b1 :: rest) ++ [c0, c1] := by
      simp
    rw [hr2]
    simp
  unfold populateHeader
  simp only [List.head?_cons, hsz]
  rw [if_neg (by simp), hslice]

theorem checkFrame_append_crc (calcSize : Nat → List Nat → Option Nat)
    (b0 b1 : Nat) (rest : List Nat) (c0 c1 : Nat) (hd : RtuHeader)
    (hsz : get_expected_response_length calcSize (b0 :: b1 :: (rest ++ [c0, c1]))
      = some (rest.length + 4)) :
    (checkFrame calcSize ⟨b0 :: b1 :: (rest ++ [c0, c1]), hd⟩).2
      = checkCRC (b0 :: b1 :: rest) (c0 * 256 + c1) := by
  have hdata : pySlice (b0 :: b1 :: (rest ++ [c0, c1])) 0
      (((rest.length + 4 : Nat) : Int) - 2) = b0 :: b1 :: rest := by
    have hcast : ((rest.length + 4 : Nat) : Int) - 2 = ((rest.length + 2 : Nat) : Int) := by
      push_cast
      ring
    have h0 : (0 : Int) = ((0 : Nat) : Int) := rfl
    rw [hcast, h0, pySlice_nat, List.drop_zero]
    have hr2 : b0 :: b1 :: (rest ++ [c0, c1]) = (b0 :: b1 :: rest) ++ [c0, c1] := by
      simp
    rw [hr2]
    simp
  unfold checkFrame
  rw [populateHeader_append_crc calcSize b0 b1 rest c0 c1 hd hsz]
  show checkCRC (pySlice (b0 :: b1 :: (rest ++ [c0, c1])) 0
      (((rest.length + 4 : Nat) : Int) - 2)) (c0 * 256 + c1) = _
  rw [hdata]

/-- Claim C6: for every message, `buildPacket` emits
`[slave_id][function_code][encoded data]` followed by the 2-byte CRC-16/Modbus
of all preceding bytes packed big-endian, and the framer's own `checkFrame` CRC
validation (reading the trailing two bytes as a big-endian word) accepts exactly
such a packet: for any trailing word it succeeds precisely when the word equals
the CRC of the preceding bytes, and in particular it accepts `buildPacket`'s own
output (given a frame-size calculator answering the true frame length). -/
theorem rtu_buildPacket_crc_selfconsistent (encode : Pdu → List Nat) (m : Pdu)
    (calcSize : Nat → List Nat → Option Nat)
    (hb : ∀ b ∈ m.slave_id :: m.function_code :: encode m, b < 256)
    (hsz : ∀ c0 c1 : Nat,
      get_expected_response_length calcSize
          (m.slave_id :: m.function_code :: (encode m ++ [c0, c1]))
        = some ((encode m).length + 4)) :
    ((rtuBuildPacket encode m).1
        = (m.slave_id :: m.function_code :: encode m)
          ++ [computeCRC (m.slave_id :: m.function_code :: encode m) / 256,
              computeCRC (m.slave_id :: m.function_code :: encode m) % 256])
    ∧ (∀ c0 c1 : Nat,
        ((checkFrame calcSize
            ⟨m.slave_id :: m.function_code :: (encode m ++ [c0, c1]),
              rtuHeaderReset⟩).2 = true
          ↔ c0 * 256 + c1
              = computeCRC (m.slave_id :: m.function_code :: encode m)))
    ∧ (checkFrame calcSize
        ⟨(rtuBuildPacket encode m).1, rtuHeaderReset⟩).2 = true := by
  have hiff : ∀ c0 c1 : Nat,
      ((checkFrame calcSize
          ⟨m.slave_id :: m.function_code :: (encode m ++ [c0, c1]),
            rtuHeaderReset⟩).2 = true
        ↔ c0 * 256 + c1
            = computeCRC (m.slave_id :: m.function_code :: encode m)) := by
    intro c0 c1
    rw [checkFrame_append_crc calcSize m.slave_id m.function_code (encode m) c0 c1
      rtuHeaderReset (hsz c0 c1)]
    unfold checkCRC
    rw [beq_iff_eq]
    exact eq_comm
  have hpacket : (rtuBuildPacket encode m).1
      = m.slave_id :: m.function_code ::
          (encode m ++ [computeCRC (m.slave_id :: m.function_code :: encode m) / 256,
            computeCRC (m.slave_id :: m.function_code :: encode m) % 256]) := by
    unfold rtuBuildPacket be16
    simp
  refine ⟨?_, hiff, ?_⟩
  · rw [hpacket]
    simp
  · rw [hpacket,
      hiff (computeCRC (m.slave_id :: m.function_code :: encode m) / 256)
        (computeCRC (m.slave_id :: m.function_code :: encode m) % 256)]
    have hlt := computeCRC_lt (m.slave_id :: m.function_code :: encode m) hb
    omega

/-- Witness for claim C6 on the read-holding-registers response frame. -/
theorem rtu_buildPacket_crc_selfconsistent_witness :
    ((rtuBuildPacket (fun _ => [2, 0, 10]) ⟨3, 1, 0, 0⟩).1
        = (1 :: 3 :: [2, 0, 10])
          ++ [computeCRC (1 :: 3 :: [2, 0, 10]) / 256,
              computeCRC (1 :: 3 :: [2, 0, 10]) % 256])
    ∧ (∀ c0 c1 : Nat,
        ((checkFrame calcSize7
            ⟨1 :: 3 :: ([2, 0, 10] ++ [c0, c1]), rtuHeaderReset⟩).2 = true
          ↔ c0 * 256 + c1 = computeCRC (1 :: 3 :: [2, 0, 10])))
    ∧ (checkFrame calcSize7
        ⟨(rtuBuildPacket (fun _ => [2, 0, 10]) ⟨3, 1, 0, 0⟩).1,
          rtuHeaderReset⟩).2 = true :=
  rtu_buildPacket_crc_selfconsistent (fun _ => [2, 0, 10]) ⟨3, 1, 0, 0⟩ calcSize7
    (by decide) (fun c0 c1 => rfl)

/-- A well-formed MBAP request frame with `len = 4` (tid takes the given value):
`00 tt 00 00 00 04 11 03 02 FF`, occupying `hsize - 1 + len = 10` bytes. -/
def mbapReq (t : Nat) : List Nat :=
  [0, t, 0, 0, 0, 4, 17, 3, 2, 255]

/-- Claim C1: for the MBAP framer, `k` back-to-back well-formed frames are
delivered in order with the buffer advancing by exactly `6 + len` bytes each.
The code instead slices and advances by `7 + len` bytes (`getFrame` and
`advanceFrame` lack the `- 1` that the class docstring `message[0 : 7 + length
- 1]` prescribes): after delivering the first of two frames, the buffer has lost
the second frame's first byte, and the second call delivers nothing. -/
theorem sock_back_to_back_frames_drop_byte :
    (sockFrameProcessIncomingPacket decodeFc none false [Sum.inl 17] none
        ⟨mbapReq 1 ++ mbapReq 2, ⟨0, 0, 0, 0⟩⟩).2.1
      = some ⟨3, 17, 1, 0⟩
    ∧ (sockFrameProcessIncomingPacket decodeFc none false [Sum.inl 17] none
        ⟨mbapReq 1 ++ mbapReq 2, ⟨0, 0, 0, 0⟩⟩).1.buffer
      = (mbapReq 2).drop 1
    ∧ (sockFrameProcessIncomingPacket decodeFc none false [Sum.inl 17] none
        ⟨mbapReq 1 ++ mbapReq 2, ⟨0, 0, 0, 0⟩⟩).1.buffer ≠ mbapReq 2
    ∧ (sockFrameProcessIncomingPacket decodeFc none false [Sum.inl 17] none
        (sockFrameProcessIncomingPacket decodeFc none false [Sum.inl 17] none
          ⟨mbapReq 1 ++ mbapReq 2, ⟨0, 0, 0, 0⟩⟩).1).2.1
      = none := by
  decide

/-- Claim C3: for the MBAP framer, a parsed header with `len < 2` should drop
exactly the 7-byte header.  The code drops `hsize + len` bytes: on the 8-byte
input `00 01 00 00 00 01 01 03` (LEN = 1) it drops all 8 bytes, swallowing the
byte `03` that should have remained buffered.  The rest of the claim holds: no
frame is delivered, no error raised, not-ready reported. -/
theorem sock_short_len_drops_eight_bytes :
    sockCheckFrame ⟨[0, 1, 0, 0, 0, 1, 1, 3], ⟨0, 0, 0, 0⟩⟩
      = (⟨[], ⟨0, 0, 0, 0⟩⟩, false)
    ∧ sockFrameProcessIncomingPacket decodeFc none false [Sum.inl 17] none
        ⟨[0, 1, 0, 0, 0, 1, 1, 3], ⟨0, 0, 0, 0⟩⟩
      = (⟨[], ⟨0, 0, 0, 0⟩⟩, none, none)
    ∧ ([] : List Nat) ≠ [3] := by
  decide

/-- Claim C7: the MBAP `buildPacket` emits exactly the 7-byte big-endian header
(transaction id, protocol id, length = data length + 2, unit id) followed by
the function-code byte and the encoded data. -/
theorem sock_buildPacket_layout (encode : Pdu → List Nat) (m : Pdu)
    (h1 : m.transaction_id < 65536) (h2 : m.protocol_id < 65536)
    (h3 : (encode m).length + 2 < 65536) (h4 : m.slave_id < 256)
    (h5 : m.function_code < 256) :
    sockBuildPacket encode m
      = [m.transaction_id / 256, m.transaction_id % 256,
         m.protocol_id / 256, m.protocol_id % 256,
         ((encode m).length + 2) / 256, ((encode m).length + 2) % 256,
         m.slave_id, m.function_code] ++ encode m
    ∧ (sockBuildPacket encode m).length = 8 + (encode m).length
    ∧ (sockBuildPacket encode m).getD 0 0 * 256
        + (sockBuildPacket encode m).getD 1 0 = m.transaction_id
    ∧ (sockBuildPacket encode m).getD 2 0 * 256
        + (sockBuildPacket encode m).getD 3 0 = m.protocol_id
    ∧ (sockBuildPacket encode m).getD 4 0 * 256
        + (sockBuildPacket encode m).getD 5 0 = (encode m).length + 2
    ∧ (sockBuildPacket encode m).getD 6 0 = m.slave_id
    ∧ (sockBuildPacket encode m).getD 7 0 = m.function_code
    ∧ (sockBuildPacket encode m).drop 8 = encode m
    ∧ ∀ k, k < 8 → (sockBuildPacket encode m).getD k 0 < 256 := by
  have hp : sockBuildPacket encode m
      = [m.transaction_id / 256, m.transaction_id % 256,
         m.protocol_id / 256, m.protocol_id % 256,
         ((encode m).length + 2) / 256, ((encode m).length + 2) % 256,
         m.slave_id, m.function_code] ++ encode m := by
    unfold sockBuildPacket be16
    simp
  refine ⟨hp, ?_, ?_, ?_, ?_, ?_, ?_, ?_, ?_⟩
  · rw [hp]
    simp
    omega
  · rw [hp]
    simp only [List.getD_cons_zero, List.getD_cons_succ, List.cons_append]
    omega
  · rw [hp]
    simp only [List.getD_cons_zero, List.getD_cons_succ, List.cons_append]
    omega
  · rw [hp]
    simp only [List.getD_cons_zero, List.getD_cons_succ, List.cons_append]
    omega
  · rw [hp]
    simp only [List.getD_cons_zero, List.getD_cons_succ, List.cons_append]
  · rw [hp]
    simp only [List.getD_cons_zero, List.getD_cons_succ, List.cons_append]
  · rw [hp]
    simp
  · intro k hk
    rw [hp]
    interval_cases k <;>
      simp only [List.getD_cons_zero, List.getD_cons_succ, List.cons_append] <;>
      omega

/-- Witness for claim C7 on a concrete read-holding-registers request. -/
theorem sock_buildPacket_layout_witness :
    sockBuildPacket (fun _ => [0, 0, 0, 10]) ⟨3, 1, 1, 0⟩
      = [1 / 256, 1 % 256, 0 / 256, 0 % 256, 6 / 256, 6 % 256, 1, 3]
          ++ [0, 0, 0, 10]
    ∧ (sockBuildPacket (fun _ => [0, 0, 0, 10]) ⟨3, 1, 1, 0⟩).length = 8 + 4
    ∧ (sockBuildPacket (fun _ => [0, 0, 0, 10]) ⟨3, 1, 1, 0⟩).getD 0 0 * 256
        + (sockBuildPacket (fun _ => [0, 0, 0, 10]) ⟨3, 1, 1, 0⟩).getD 1 0 = 1
    ∧ (sockBuildPacket (fun _ => [0, 0, 0, 10]) ⟨3, 1, 1, 0⟩).getD 2 0 * 256
        + (sockBuildPacket (fun _ => [0, 0, 0, 10]) ⟨3, 1, 1, 0⟩).getD 3 0 = 0
    ∧ (sockBuildPacket (fun _ => [0, 0, 0, 10]) ⟨3, 1, 1, 0⟩).getD 4 0 * 256
        + (sockBuildPacket (fun _ => [0, 0, 0, 10]) ⟨3, 1, 1, 0⟩).getD 5 0 = 4 + 2
    ∧ (sockBuildPacket (fun _ => [0, 0, 0, 10]) ⟨3, 1, 1, 0⟩).getD 6 0 = 1
    ∧ (sockBuildPacket (fun _ => [0, 0, 0, 10]) ⟨3, 1, 1, 0⟩).getD 7 0 = 3
    ∧ (sockBuildPacket (fun _ => [0, 0, 0, 10]) ⟨3, 1, 1, 0⟩).drop 8 = [0, 0, 0, 10]
    ∧ ∀ k, k < 8 →
        (sockBuildPacket (fun _ => [0, 0, 0, 10]) ⟨3, 1, 1, 0⟩).getD k 0 < 256 :=
  sock_buildPacket_layout (fun _ => [0, 0, 0, 10]) ⟨3, 1, 1, 0⟩
    (by norm_num) (by norm_num) (by norm_num) (by norm_num) (by norm_num)

/-- Claim C8: for the MBAP framer, when a (truthy) expected transaction id is
supplied and the decoded PDU's transaction id (populated from the frame header)
differs, the frame is dropped — buffer and header reset — the callback is not
invoked and no exception is raised. -/
theorem sock_tid_mismatch_drops_frame (decode : List Nat → Option Pdu)
    (transportPeer : Option Nat) (single : Bool) (slaves : List SlaveKey)
    (t : Nat) (s s1 : SockState) (r : Pdu)
    (hcf : sockCheckFrame s = (s1, true))
    (hv : sockValidateSlaveId transportPeer slaves single s1.header.uid = true)
    (hd : decode (sockGetFrame s1) = some r)
    (ht0 : t ≠ 0)
    (hne : t ≠ s1.header.tid) :
    sockFrameProcessIncomingPacket decode transportPeer single slaves (some t) s
      = (⟨[], ⟨0, 0, 0, 0⟩⟩, none, none) := by
  have hstep : sockProcessStep decode (some t) false s1
      = (⟨[], ⟨0, 0, 0, 0⟩⟩, none, none) := by
    unfold sockProcessStep
    rw [show (if (false : Bool) then s1.buffer else sockGetFrame s1)
        = sockGetFrame s1 from rfl, hd]
    show (if false = true ∧ r.function_code < 0x80 then
        (s1, none, some (FramerError.invalidMessage r))
      else
        if t ≠ 0 ∧ t ≠ (sockPopulateResult s1.header r).transaction_id then
          (sockResetFrame (sockAdvanceFrame s1), none, none)
        else (sockAdvanceFrame s1, some (sockPopulateResult s1.header r), none))
      = (⟨[], ⟨0, 0, 0, 0⟩⟩, none, none)
    rw [if_neg (by simp), if_pos ⟨ht0, hne⟩]
    rfl
  unfold sockFrameProcessIncomingPacket
  rw [hcf]
  show (if sockValidateSlaveId transportPeer slaves single s1.header.uid
      then sockProcessStep decode (some t) false s1
      else (sockResetFrame s1, none, none)) = _
  rw [if_pos hv, hstep]

/-- Witness for claim C8: frame tid 5 against expected tid 9. -/
theorem sock_tid_mismatch_drops_frame_witness :
    sockFrameProcessIncomingPacket decodeFc none false [Sum.inl 17] (some 9)
        ⟨[0, 5, 0, 0, 0, 3, 17, 3, 2], ⟨0, 0, 0, 0⟩⟩
      = (⟨[], ⟨0, 0, 0, 0⟩⟩, none, none) :=
  sock_tid_mismatch_drops_frame decodeFc none false [Sum.inl 17] 9
    ⟨[0, 5, 0, 0, 0, 3, 17, 3, 2], ⟨0, 0, 0, 0⟩⟩
    ⟨[0, 5, 0, 0, 0, 3, 17, 3, 2], ⟨5, 0, 3, 17⟩⟩
    ⟨3, 0, 0, 0⟩
    (by decide) (by decide) (by decide) (by decide) (by decide)

/-- Claim C9: RTU transaction-id proxy invariant — `buildPacket` forces the
message's transaction id to its slave id, and on receive `populateHeader` /
`populateResult` set both the delivered PDU's slave id and transaction id to the
frame's first (uid) byte. -/
theorem rtu_transaction_id_is_slave_id (encode : Pdu → List Nat) (m : Pdu)
    (calcSize : Nat → List Nat → Option Nat) (s : RtuState) (s1 : RtuState)
    (size : Nat) (r : Pdu)
    (hp : populateHeader calcSize s = (s1, some size)) :
    (rtuBuildPacket encode m).2.transaction_id = (rtuBuildPacket encode m).2.slave_id
    ∧ (populateResult s1.header r).slave_id = s.buffer.headD 0
    ∧ (populateResult s1.header r).transaction_id = s.buffer.headD 0
    ∧ (populateResult s1.header r).transaction_id
        = (populateResult s1.header r).slave_id := by
  have huid : s1.header.uid = s.buffer.headD 0 ∧ s1.header.tid = s.buffer.headD 0 := by
    unfold populateHeader at hp
    cases hb : s.buffer with
    | nil =>
      rw [hb] at hp
      simp at hp
    | cons b0 bs =>
      rw [hb] at hp
      simp only [List.head?_cons] at hp
      split at hp
      · simp at hp
      · split at hp
        · simp at hp
        · rw [Prod.mk.injEq] at hp
          obtain ⟨h1, _⟩ := hp
          rw [← h1]
          simp
  refine ⟨rfl, ?_, ?_, ?_⟩
  · show s1.header.uid = s.buffer.headD 0
    exact huid.1
  · show s1.header.tid = s.buffer.headD 0
    exact huid.2
  · show s1.header.tid = s1.header.uid
    rw [huid.1, huid.2]

/-- Witness for claim C9 at the concrete good frame. -/
theorem rtu_transaction_id_is_slave_id_witness :
    (rtuBuildPacket (fun _ => [2, 0, 10]) ⟨3, 1, 0, 0⟩).2.transaction_id
      = (rtuBuildPacket (fun _ => [2, 0, 10]) ⟨3, 1, 0, 0⟩).2.slave_id
    ∧ (populateResult (⟨1, 1, 7, be16 (computeCRC [1, 3, 2, 0, 10])⟩ : RtuHeader)
        ⟨3, 0, 0, 0⟩).slave_id
      = (⟨rtuGoodBytes, rtuHeaderReset⟩ : RtuState).buffer.headD 0
    ∧ (populateResult (⟨1, 1, 7, be16 (computeCRC [1, 3, 2, 0, 10])⟩ : RtuHeader)
        ⟨3, 0, 0, 0⟩).transaction_id
      = (⟨rtuGoodBytes, rtuHeaderReset⟩ : RtuState).buffer.headD 0
    ∧ (populateResult (⟨1, 1, 7, be16 (computeCRC [1, 3, 2, 0, 10])⟩ : RtuHeader)
        ⟨3, 0, 0, 0⟩).transaction_id
      = (populateResult (⟨1, 1, 7, be16 (computeCRC [1, 3, 2, 0, 10])⟩ : RtuHeader)
        ⟨3, 0, 0, 0⟩).slave_id :=
  rtu_transaction_id_is_slave_id (fun _ => [2, 0, 10]) ⟨3, 1, 0, 0⟩ calcSize7
    ⟨rtuGoodBytes, rtuHeaderReset⟩
    ⟨rtuGoodBytes, ⟨1, 1, 7, be16 (computeCRC [1, 3, 2, 0, 10])⟩⟩ 7
    ⟨3, 0, 0, 0⟩ (by decide)

/-- Claim C10: when the expected transaction id passed to the MBAP
`frameProcessIncomingPacket` is 0, the transaction-id filter is disabled: a
successfully decoded frame is delivered to the callback even though its
(nonzero) transaction id differs from the expected value 0. -/
theorem sock_tid_zero_disables_filter (decode : List Nat → Option Pdu)
    (transportPeer : Option Nat) (single : Bool) (slaves : List SlaveKey)
    (s s1 : SockState) (r : Pdu)
    (hcf : sockCheckFrame s = (s1, true))
    (hv : sockValidateSlaveId transportPeer slaves single s1.header.uid = true)
    (hd : decode (sockGetFrame s1) = some r)
    (_hnz : s1.header.tid ≠ 0) :
    sockFrameProcessIncomingPacket decode transportPeer single slaves (some 0) s
      = (sockAdvanceFrame s1, some (sockPopulateResult s1.header r), none) := by
  have hstep : sockProcessStep decode (some 0) false s1
      = (sockAdvanceFrame s1, some (sockPopulateResult s1.header r), none) := by
    unfold sockProcessStep
    rw [show (if (false : Bool) then s1.buffer else sockGetFrame s1)
        = sockGetFrame s1 from rfl, hd]
    show (if false = true ∧ r.function_code < 0x80 then
        (s1, none, some (FramerError.invalidMessage r))
      else
        if (0 : Nat) ≠ 0 ∧ (0 : Nat) ≠ (sockPopulateResult s1.header r).transaction_id then
          (sockResetFrame (sockAdvanceFrame s1), none, none)
        else (sockAdvanceFrame s1, some (sockPopulateResult s1.header r), none))
      = (sockAdvanceFrame s1, some (sockPopulateResult s1.header r), none)
    rw [if_neg (by simp), if_neg (by simp)]
  unfold sockFrameProcessIncomingPacket
  rw [hcf]
  show (if sockValidateSlaveId transportPeer slaves single s1.header.uid
      then sockProcessStep decode (some 0) false s1
      else (sockResetFrame s1, none, none)) = _
  rw [if_pos hv, hstep]

/-- Witness for claim C10: frame tid 5, expected tid 0 — delivered anyway. -/
theorem sock_tid_zero_disables_filter_witness :
    sockFrameProcessIncomingPacket decodeFc none false [Sum.inl 17] (some 0)
        ⟨[0, 5, 0, 0, 0, 3, 17, 3, 2], ⟨0, 0, 0, 0⟩⟩
      = (sockAdvanceFrame ⟨[0, 5, 0, 0, 0, 3, 17, 3, 2], ⟨5, 0, 3, 17⟩⟩,
          some (sockPopulateResult (⟨5, 0, 3, 17⟩ : SockHeader) ⟨3, 0, 0, 0⟩),
          none) :=
  sock_tid_zero_disables_filter decodeFc none false [Sum.inl 17]
    ⟨[0, 5, 0, 0, 0, 3, 17, 3, 2], ⟨0, 0, 0, 0⟩⟩
    ⟨[0, 5, 0, 0, 0, 3, 17, 3, 2], ⟨5, 0, 3, 17⟩⟩
    ⟨3, 0, 0, 0⟩
    (by decide) (by decide) (by decide) (by decide)

end PyModbus
